import Mathlib

/-!
Verification development for `Excel_Table_Extractor.py`.

The file embeds the extractor's core (the row classifier `is_header_row`,
the table segmenter `detect_tables`, the finalizer `process_tables`, and the
pipeline `extract_tables`) as executable Lean definitions over an explicit
cell type, and proves or refutes the specification's claims about them.

Modelling choices (documented once here):
* a cell is one of the Python values a loaded sheet can hold: `None`/NaN
  (`empty`), `str` (`text`), `int` (`intVal`), `float` (`floatVal`),
  `bool` (`boolVal`) and a datetime (`dateVal`);
* Python's `k/n >= 0.75` on counts is modelled as `3 * n ≤ 4 * k`
  (0.75 is exactly 3/4, also in binary floating point);
* `pd.to_datetime(value, errors=raise)` succeeds on strings never (strings
  short-circuit through `isinstance(value, str)`), on ints, floats and
  datetimes (numbers are read as epoch offsets), returns NaT on `None`, and
  raises `TypeError` on `bool`, which the `except` turns into `False`;
* `isinstance(value, (int, float))` is true for `bool` as well, since
  Python's `bool` is a subclass of `int`;
* `str(value)` for keyword search is the value's text: the exact decimal
  rendering of floats and datetimes is approximated (no claim depends on it).
-/

inductive Cell where
  | empty
  | text (s : String)
  | intVal (n : Int)
  | floatVal (q : Rat)
  | boolVal (b : Bool)
  | dateVal (n : Int)
deriving DecidableEq, Repr

/-- Lower-cased character list of a string, for the case-insensitive
keyword comparison `keyword.lower() in str(value).lower()`. -/
def charsLower (s : String) : List Char := s.data.map Char.toLower

/-- Whether the first list is an initial segment of the second. -/
def listLeadsWith : List Char → List Char → Bool
  | [], _ => true
  | _ :: _, [] => false
  | a :: as, b :: bs => a == b && listLeadsWith as bs

/-- Whether the first list occurs contiguously inside the second
(Python's `needle in hay` on strings). -/
def listContainsSeq (needle : List Char) : List Char → Bool
  | [] => listLeadsWith needle []
  | b :: bs => listLeadsWith needle (b :: bs) || listContainsSeq needle bs

/-- Case-insensitive substring test: `needle.lower() in hay.lower()`. -/
def strContainsCI (hay needle : String) : Bool :=
  listContainsSeq (charsLower needle) (charsLower hay)

/-- The text Python's `str(value)` would give a cell, used only for the
keyword search; the rendering of floats and datetimes is approximate. -/
def cellStr (c : Cell) : String :=
  match c with
  | .empty => "nan"
  | .text s => s
  | .intVal n => toString n
  | .floatVal q => toString q
  | .boolVal b => if b then "True" else "False"
  | .dateVal n => toString n

/-- `row.dropna()`: the non-null cells of a row, in order. -/
def dropna (row : List Cell) : List Cell :=
  row.filter fun c =>
    match c with
    | .empty => false
    | _ => true

/-- The inner `is_string_or_date` of `is_header_row` (lines 55-62): a string
is accepted outright; otherwise `pd.to_datetime(value, errors=raise)` is
tried, which succeeds on ints, floats, datetimes and `None` (NaT) and raises
on `bool`; the raise is caught and becomes `False`. Only applied to non-null
cells, so the `empty` arm is unreachable in every use below. -/
def isStringOrDate (c : Cell) : Bool :=
  match c with
  | .empty => true
  | .text _ => true
  | .intVal _ => true
  | .floatVal _ => true
  | .boolVal _ => false
  | .dateVal _ => true

/-- `isinstance(x, (int, float))` (line 75); Python's `bool` is a subclass
of `int`, so booleans count as numeric. -/
def isNumericCell (c : Cell) : Bool :=
  match c with
  | .intVal _ => true
  | .floatVal _ => true
  | .boolVal _ => true
  | _ => false

/-- The keyword signal of `is_header_row` (lines 67-68): some non-null cell
of the row contains some configured keyword, case-insensitively. -/
def rowKeywordHit (kw : List String) (nonNull : List Cell) : Bool :=
  nonNull.any fun v => kw.any fun k => strContainsCI (cellStr v) k

/-- `ExcelTableExtractor.is_header_row` (lines 40-78): a row is a header when
its non-null cells are at least 75% string-or-date-like or hit a keyword,
and the next row is non-empty with at least 75% numeric non-null cells. -/
def isHeaderRow (kw : List String) (row nextRow : List Cell) : Bool :=
  let nonNull := dropna row
  if nonNull.length = 0 then false
  else
    let stringOrDateCount := (nonNull.filter isStringOrDate).length
    let keywordPresent := rowKeywordHit kw nonNull
    let nextNonNull := dropna nextRow
    if nextNonNull.length = 0 then false
    else
      let nextNumericCount := (nextNonNull.filter isNumericCell).length
      let nextIsData := decide (3 * nextNonNull.length ≤ 4 * nextNumericCount)
      (decide (3 * nonNull.length ≤ 4 * stringOrDateCount) || keywordPresent) && nextIsData

/-- A pandas DataFrame as the segmenter builds it: its column labels and its
data rows. `shape[1]`, the column count, is `columns.length`. -/
structure Table where
  columns : List Cell
  rows : List (List Cell)
deriving DecidableEq, Repr

/-- The default `RangeIndex` column labels a DataFrame gets when it is built
with `columns=None`: the integers `0, 1, ...` up to the row width. -/
def defaultCols (rows : List (List Cell)) : List Cell :=
  (List.range (rows.headD []).length).map fun n => Cell.intVal n

/-- `pd.DataFrame(current_table, columns=header)` (lines 101, 112, 118):
with `header=None` pandas falls back to the positional `RangeIndex`. -/
def mkTable (rows : List (List Cell)) (hdr : Option (List Cell)) : Table :=
  { columns := match hdr with
      | some h => h
      | none => defaultCols rows,
    rows := rows }

/-- The mutable locals of `detect_tables` (lines 86-91). -/
structure DetectState where
  tables : List Table
  currentTable : List (List Cell)
  headerRowIndices : List Nat
  headers : List (List Cell)
  header : Option (List Cell)
  inTable : Bool
deriving DecidableEq, Repr

/-- The repeated `if current_table: tables.append(...); current_table = []`
fragment (lines 100-102, 111-113, 117-118). -/
def flushTable (s : DetectState) : DetectState :=
  match s.currentTable with
  | [] => s
  | _ :: _ =>
    { s with tables := s.tables ++ [mkTable s.currentTable s.header], currentTable := [] }

/-- One iteration of the `detect_tables` loop body (lines 94-115): a header
is recorded only when `is_header_row` holds AND the machine is not already
in a table; otherwise a row whose non-null count matches the active header
length is appended; otherwise any open table is closed. -/
def detectStep (kw : List String) (index : Nat) (row nextRow : List Cell)
    (s : DetectState) : DetectState :=
  if isHeaderRow kw row nextRow && !s.inTable then
    let s1 := flushTable s
    let h := dropna row
    { s1 with headerRowIndices := s1.headerRowIndices ++ [index],
              headers := s1.headers ++ [h],
              header := some h,
              inTable := true }
  else if s.inTable && (dropna row).length == (s.header.getD []).length then
    { s with currentTable := s.currentTable ++ [dropna row] }
  else
    let s1 := flushTable s
    { s1 with header := none, inTable := false }

/-- The `for index in range(len(self.data_frame))` loop of `detect_tables`:
each row is visited once, with `next_row` the following row, or a fresh
all-`None` row of the same width at the last index (lines 93-96). -/
def detectGo (kw : List String) : List (List Cell) → Nat → DetectState → DetectState
  | [], _, s => s
  | row :: rest, index, s =>
    let nextRow :=
      match rest with
      | next :: _ => next
      | [] => List.replicate row.length Cell.empty
    detectGo kw rest (index + 1) (detectStep kw index row nextRow s)

/-- The initial values of the locals of `detect_tables` (lines 86-91). -/
def initState : DetectState :=
  { tables := [], currentTable := [], headerRowIndices := [], headers := [],
    header := none, inTable := false }

/-- `ExcelTableExtractor.detect_tables` (lines 80-120): run the loop over the
grid, then flush a still-open table; the caller reads the `tables`,
`headerRowIndices` and `headers` fields of the result. -/
def detectTables (kw : List String) (grid : List (List Cell)) : DetectState :=
  flushTable (detectGo kw grid 0 initState)

/-- One iteration of `process_tables` (lines 131-137): assign the paired
header as column names when its length equals the table's column count,
otherwise leave the table unchanged; `reset_index(drop=True)` renumbers the
row index, which is the identity on this positional representation. -/
def processOne (t : Table) (h : List Cell) : Table :=
  if h.length == t.columns.length then { t with columns := h } else t

/-- `ExcelTableExtractor.process_tables` (lines 122-138): walk
`zip(tables, headers)` and process each pair in order. -/
def processTables (tables : List Table) (headers : List (List Cell)) : List Table :=
  (tables.zip headers).map fun p => processOne p.1 p.2

/-- `ExcelTableExtractor.extract_tables` (lines 140-148). -/
def extractTables (kw : List String) (grid : List (List Cell)) : List Table :=
  let r := detectTables kw grid
  processTables r.tables r.headers

/-- The full observable output of one extraction run: the processed tables
together with the header row indices and headers `detect_tables` reports. -/
def extractRun (kw : List String) (grid : List (List Cell)) :
    List Table × List Nat × List (List Cell) :=
  let r := detectTables kw grid
  (processTables r.tables r.headers, r.headerRowIndices, r.headers)

/-- The default keyword list (line 37). -/
def defaultKeywords : List String := ["date", "name", "amount", "total", "price"]

/-- Scenario A of the specification: two stacked tables separated by an
all-empty row, with mixed text/number data rows. -/
def scenarioA : List (List Cell) :=
  [[.text "Date", .text "Name", .text "Amount"],
   [.text "2024-01-01", .text "Alice", .intVal 100],
   [.text "2024-01-02", .text "Bob", .intVal 200],
   [.empty, .empty, .empty],
   [.text "Name", .text "Total", .empty],
   [.text "Carol", .intVal 50, .empty]]

/-- Scenario B shape: a second header row (different column count) directly
follows the last data row of a prior table, with no blank separator. -/
def gridBackToBack : List (List Cell) :=
  [[.text "A", .text "B", .empty],
   [.intVal 1, .intVal 2, .empty],
   [.text "C", .text "D", .text "E"],
   [.intVal 1, .intVal 2, .intVal 3]]

/-- A grid whose first detected header is never followed by a matching data
row, while a second detected header does collect one: the headers list ends
up longer than the tables list. -/
def gridSkippedHeader : List (List Cell) :=
  [[.text "Name", .empty, .empty],
   [.intVal 7, .intVal 8, .empty],
   [.text "Total", .empty, .empty],
   [.intVal 9, .empty, .empty]]

/-- Like `gridSkippedHeader`, but the first (table-less) header has length 2
while the surviving table has width 1, forcing the finalizer's
length-mismatch branch on that table. -/
def gridWidthMismatch : List (List Cell) :=
  [[.text "Name", .text "Total", .empty],
   [.intVal 7, .empty, .empty],
   [.text "Price", .empty, .empty],
   [.intVal 9, .empty, .empty]]

theorem flushTable_headers (s : DetectState) : (flushTable s).headers = s.headers := by
  unfold flushTable
  cases s.currentTable <;> rfl

theorem flushTable_headerRowIndices (s : DetectState) :
    (flushTable s).headerRowIndices = s.headerRowIndices := by
  unfold flushTable
  cases s.currentTable <;> rfl

theorem flushTable_header (s : DetectState) : (flushTable s).header = s.header := by
  unfold flushTable
  cases s.currentTable <;> rfl

theorem flushTable_inTable (s : DetectState) : (flushTable s).inTable = s.inTable := by
  unfold flushTable
  cases s.currentTable <;> rfl

theorem flushTable_currentTable (s : DetectState) : (flushTable s).currentTable = [] := by
  obtain ⟨tabs, cur, idxs, hdrs, hd, intb⟩ := s
  cases cur <;> rfl

/-- C1: the claim predicts that a header row met while `in_table` closes the
current table and opens a new one on the same iteration. On `gridBackToBack`
row 2 satisfies `is_header_row`, yet after the whole scan only the first
header is recorded and only one table exists: header detection is gated by
`not in_table` (line 98), so no new table is opened at row 2. -/
theorem C1_counterexample :
    isHeaderRow defaultKeywords [Cell.text "C", Cell.text "D", Cell.text "E"]
      [Cell.intVal 1, Cell.intVal 2, Cell.intVal 3] = true ∧
    (detectTables defaultKeywords gridBackToBack).headers = [[Cell.text "A", Cell.text "B"]] ∧
    (detectTables defaultKeywords gridBackToBack).headerRowIndices = [0] ∧
    (detectTables defaultKeywords gridBackToBack).tables =
      [{ columns := [Cell.text "A", Cell.text "B"], rows := [[Cell.intVal 1, Cell.intVal 2]] }] := by
  decide

/-- C1 (amended): when the segmenter is `in_table` and the current row
satisfies `is_header_row`, the step records no new header and no new header
index; if the row's non-null count equals the active header length it is
absorbed as a data row, otherwise the open table is closed and the state
returns to `no_table` — a new table is never opened on that iteration. -/
theorem C1_no_reopen (kw : List String) (index : Nat) (row nextRow : List Cell)
    (s : DetectState) (hin : s.inTable = true) (hhd : isHeaderRow kw row nextRow = true) :
    (detectStep kw index row nextRow s).headers = s.headers ∧
    (detectStep kw index row nextRow s).headerRowIndices = s.headerRowIndices ∧
    detectStep kw index row nextRow s =
      (if (dropna row).length = (s.header.getD []).length then
        { s with currentTable := s.currentTable ++ [dropna row] }
      else { flushTable s with header := none, inTable := false }) := by
  have hmain : detectStep kw index row nextRow s =
      (if (dropna row).length = (s.header.getD []).length then
        { s with currentTable := s.currentTable ++ [dropna row] }
      else { flushTable s with header := none, inTable := false }) := by
    unfold detectStep
    rw [hhd, hin]
    by_cases hlen : (dropna row).length = (s.header.getD []).length
    · simp [hlen]
    · simp [hlen]
  refine ⟨?_, ?_, hmain⟩
  · rw [hmain]
    by_cases hlen : (dropna row).length = (s.header.getD []).length
    · simp [hlen]
    · simp [hlen, flushTable_headers]
  · rw [hmain]
    by_cases hlen : (dropna row).length = (s.header.getD []).length
    · simp [hlen]
    · simp [hlen, flushTable_headerRowIndices]

/-- A concrete mid-scan segmenter state: one table open with a one-column
header and one accumulated data row. -/
def exStateC1 : DetectState :=
  { tables := [], currentTable := [[Cell.intVal 5]], headerRowIndices := [0],
    headers := [[Cell.text "X"]], header := some [Cell.text "X"], inTable := true }

/-- C1 witness: the amended step behavior at a concrete in-table state and a
concrete header-classified row. -/
theorem C1_no_reopen_witness :
    (detectStep defaultKeywords 1 [Cell.text "Name"] [Cell.intVal 3] exStateC1).headers =
      exStateC1.headers ∧
    (detectStep defaultKeywords 1 [Cell.text "Name"] [Cell.intVal 3] exStateC1).headerRowIndices =
      exStateC1.headerRowIndices ∧
    detectStep defaultKeywords 1 [Cell.text "Name"] [Cell.intVal 3] exStateC1 =
      (if (dropna [Cell.text "Name"]).length = (exStateC1.header.getD []).length then
        { exStateC1 with currentTable := exStateC1.currentTable ++ [dropna [Cell.text "Name"]] }
      else { flushTable exStateC1 with header := none, inTable := false }) :=
  C1_no_reopen defaultKeywords 1 [Cell.text "Name"] [Cell.intVal 3] exStateC1 rfl (by decide)

/-- C2: the claim predicts two tables for scenario A, but no row of that grid
is ever classified as a header: each candidate header's successor row is at
most 1/3 numeric (or empty), below the 0.75 data threshold, so the extraction
returns no table at all. In particular row 0 is not a header. -/
theorem C2_counterexample :
    ¬ (extractTables defaultKeywords scenarioA).length = 2 ∧
    extractTables defaultKeywords scenarioA = [] ∧
    isHeaderRow defaultKeywords
      [Cell.text "Date", Cell.text "Name", Cell.text "Amount"]
      [Cell.text "2024-01-01", Cell.text "Alice", Cell.intVal 100] = false := by
  decide

/-- C2 (amended): on the scenario A grid the extraction returns zero tables,
zero header row indices and zero headers, because no row passes the header
classification (every successor row is below 75% numeric or empty). -/
theorem C2_amended :
    extractRun defaultKeywords scenarioA = ([], [], []) := by
  decide

/-- C3: the claim says every returned table is paired with exactly the header
that opened it. On `gridSkippedHeader` the only table is opened by header
`["Total"]` (and carries it out of `detect_tables`), but the first detected
header `["Name"]` produced no table, so the finalizer's positional `zip`
re-tags the table with `["Name"]`. -/
theorem C3_counterexample :
    (detectTables defaultKeywords gridSkippedHeader).headers =
      [[Cell.text "Name"], [Cell.text "Total"]] ∧
    (detectTables defaultKeywords gridSkippedHeader).tables =
      [{ columns := [Cell.text "Total"], rows := [[Cell.intVal 9]] }] ∧
    extractTables defaultKeywords gridSkippedHeader =
      [{ columns := [Cell.text "Name"], rows := [[Cell.intVal 9]] }] := by
  decide

/-- C3 (amended): finalized tables keep their emission order, but the
finalizer pairs the i-th emitted table with the i-th detected header
(positional `zip`), not necessarily with the header that opened it; the
output has one entry per such positional pair. -/
theorem C3_positional_pairing (ts : List Table) (hs : List (List Cell)) (i : Nat)
    (hi : i < ts.length) (hj : i < hs.length) :
    (processTables ts hs).length = min ts.length hs.length ∧
    (processTables ts hs).getD i (Table.mk [] []) =
      processOne (ts.getD i (Table.mk [] [])) (hs.getD i []) := by
  constructor
  · simp [processTables]
  · induction ts generalizing hs i with
    | nil => exact absurd hi (by simp)
    | cons t ts2 ih =>
      cases hs with
      | nil => exact absurd hj (by simp)
      | cons h hs2 =>
        cases i with
        | zero => rfl
        | succ n =>
          have := ih hs2 n (by simpa using hi) (by simpa using hj)
          simpa [processTables] using this

/-- C3 witness: the positional pairing at a concrete one-table input. -/
theorem C3_positional_pairing_witness :
    (processTables [Table.mk [Cell.text "A"] [[Cell.intVal 1]]] [[Cell.text "B"]]).length =
      min 1 1 ∧
    (processTables [Table.mk [Cell.text "A"] [[Cell.intVal 1]]] [[Cell.text "B"]]).getD 0
        (Table.mk [] []) =
      processOne (([Table.mk [Cell.text "A"] [[Cell.intVal 1]]]).getD 0 (Table.mk [] []))
        (([[Cell.text "B"]] : List (List Cell)).getD 0 []) :=
  C3_positional_pairing [Table.mk [Cell.text "A"] [[Cell.intVal 1]]] [[Cell.text "B"]] 0
    (by decide) (by decide)

/-- C4: the claim says a table whose paired header length mismatches its
column count is left with unnamed positional columns. On `gridWidthMismatch`
the surviving table (width 1) is zipped with the dead header of length 2, so
the mismatch branch runs — and the table keeps the column names it already
carries (`["Price"]`, its opening header), not the positional `RangeIndex`
labels. Rows are returned and the table is not dropped. -/
theorem C4_counterexample :
    extractTables defaultKeywords gridWidthMismatch =
      [{ columns := [Cell.text "Price"], rows := [[Cell.intVal 9]] }] ∧
    (detectTables defaultKeywords gridWidthMismatch).headers =
      [[Cell.text "Name", Cell.text "Total"], [Cell.text "Price"]] ∧
    ¬ (extractTables defaultKeywords gridWidthMismatch).getD 0 (Table.mk [] []) =
      Table.mk (defaultCols [[Cell.intVal 9]]) [[Cell.intVal 9]] := by
  decide

/-- C4 (amended): for every (table, header) pair the finalizer receives, the
matching-length case assigns the header as column names in order, the
mismatch case leaves the table's columns unchanged (whatever names it
already carried); in both cases the table's rows are returned and the pair
contributes exactly one output table. -/
theorem C4_mismatch_keeps_columns (ts : List Table) (hs : List (List Cell))
    (t : Table) (h : List Cell) (hmem : (t, h) ∈ ts.zip hs) :
    (processTables ts hs).length = (ts.zip hs).length ∧
    processOne t h ∈ processTables ts hs ∧
    (processOne t h).rows = t.rows ∧
    (processOne t h).columns = (if h.length = t.columns.length then h else t.columns) := by
  refine ⟨by simp [processTables], ?_, ?_, ?_⟩
  · exact List.mem_map_of_mem (fun p => processOne p.1 p.2) hmem
  · unfold processOne
    split <;> rfl
  · by_cases hc : h.length = t.columns.length
    · simp [processOne, hc]
    · simp [processOne, hc]

/-- C4 witness: a concrete mismatched pair (header length 2, table width 1)
keeps its column names and its rows. -/
theorem C4_mismatch_keeps_columns_witness :
    (processTables [Table.mk [Cell.text "A"] [[Cell.intVal 1]]]
        [[Cell.text "B", Cell.text "C"]]).length =
      (([Table.mk [Cell.text "A"] [[Cell.intVal 1]]]).zip
        ([[Cell.text "B", Cell.text "C"]] : List (List Cell))).length ∧
    processOne (Table.mk [Cell.text "A"] [[Cell.intVal 1]]) [Cell.text "B", Cell.text "C"] ∈
      processTables [Table.mk [Cell.text "A"] [[Cell.intVal 1]]] [[Cell.text "B", Cell.text "C"]] ∧
    (processOne (Table.mk [Cell.text "A"] [[Cell.intVal 1]]) [Cell.text "B", Cell.text "C"]).rows =
      (Table.mk [Cell.text "A"] [[Cell.intVal 1]]).rows ∧
    (processOne (Table.mk [Cell.text "A"] [[Cell.intVal 1]]) [Cell.text "B", Cell.text "C"]).columns =
      (if ([Cell.text "B", Cell.text "C"] : List Cell).length =
          (Table.mk [Cell.text "A"] [[Cell.intVal 1]]).columns.length
       then [Cell.text "B", Cell.text "C"]
       else (Table.mk [Cell.text "A"] [[Cell.intVal 1]]).columns) :=
  C4_mismatch_keeps_columns [Table.mk [Cell.text "A"] [[Cell.intVal 1]]]
    [[Cell.text "B", Cell.text "C"]]
    (Table.mk [Cell.text "A"] [[Cell.intVal 1]]) [Cell.text "B", Cell.text "C"] (by decide)

/-- The loop invariant of `detect_tables`: the open buffer implies the
in-table flag, the in-table flag implies an active header, buffered rows
match the active header's length, and every emitted table is non-empty with
all rows matching its column count. -/
def stateInv (s : DetectState) : Prop :=
  (s.currentTable ≠ [] → s.inTable = true) ∧
  (s.inTable = true → ∃ h, s.header = some h) ∧
  (∀ r ∈ s.currentTable, r.length = (s.header.getD []).length) ∧
  (∀ t ∈ s.tables, (∀ r ∈ t.rows, r.length = t.columns.length) ∧ t.rows ≠ [])

theorem initStateInv : stateInv initState := by
  refine ⟨?_, ?_, ?_, ?_⟩ <;> simp [initState]

theorem flushTable_tables_ok (s : DetectState)
    (h1 : s.currentTable ≠ [] → s.inTable = true)
    (h2 : s.inTable = true → ∃ h, s.header = some h)
    (h3 : ∀ r ∈ s.currentTable, r.length = (s.header.getD []).length)
    (h4 : ∀ t ∈ s.tables, (∀ r ∈ t.rows, r.length = t.columns.length) ∧ t.rows ≠ []) :
    ∀ t ∈ (flushTable s).tables, (∀ r ∈ t.rows, r.length = t.columns.length) ∧ t.rows ≠ [] := by
  obtain ⟨tabs, cur, idxs, hdrs, hd, intb⟩ := s
  cases cur with
  | nil => exact h4
  | cons a l =>
    intro t ht
    have hin : intb = true := h1 (by simp)
    obtain ⟨h, hh⟩ := h2 hin
    replace ht : t ∈ tabs ++ [mkTable (a :: l) hd] := ht
    simp only [List.mem_append, List.mem_singleton] at ht
    rcases ht with ht | ht
    · exact h4 t ht
    · subst ht
      subst hh
      constructor
      · intro r hr
        have h3r := h3 r hr
        simpa [mkTable] using h3r
      · simp [mkTable]

theorem detectStep_inv (kw : List String) (index : Nat) (row nextRow : List Cell)
    (s : DetectState) (hs : stateInv s) : stateInv (detectStep kw index row nextRow s) := by
  unfold stateInv at hs
  obtain ⟨h1, h2, h3, h4⟩ := hs
  unfold detectStep
  by_cases hc1 : (isHeaderRow kw row nextRow && !s.inTable) = true
  · rw [if_pos hc1]
    refine ⟨?_, ?_, ?_, ?_⟩
    · intro hne
      exact absurd (flushTable_currentTable s) hne
    · intro _
      exact ⟨dropna row, rfl⟩
    · intro r hr
      rw [flushTable_currentTable s] at hr
      exact absurd hr (List.not_mem_nil r)
    · exact flushTable_tables_ok s h1 h2 h3 h4
  · rw [if_neg hc1]
    by_cases hc2 : (s.inTable && (dropna row).length == (s.header.getD []).length) = true
    · rw [if_pos hc2]
      rw [Bool.and_eq_true] at hc2
      obtain ⟨hin, hbeq⟩ := hc2
      have hlen : (dropna row).length = (s.header.getD []).length := eq_of_beq hbeq
      refine ⟨?_, ?_, ?_, ?_⟩
      · intro _
        exact hin
      · exact h2
      · intro r hr
        rw [List.mem_append, List.mem_singleton] at hr
        rcases hr with hr | hr
        · exact h3 r hr
        · subst hr
          exact hlen
      · exact h4
    · rw [if_neg hc2]
      refine ⟨?_, ?_, ?_, ?_⟩
      · intro hne
        exact absurd (flushTable_currentTable s) hne
      · intro hfalse
        exact absurd hfalse (by simp)
      · intro r hr
        rw [flushTable_currentTable s] at hr
        exact absurd hr (List.not_mem_nil r)
      · exact flushTable_tables_ok s h1 h2 h3 h4

theorem detectGo_inv (kw : List String) (rows : List (List Cell)) (index : Nat)
    (s : DetectState) (hs : stateInv s) : stateInv (detectGo kw rows index s) := by
  induction rows generalizing index s with
  | nil => exact hs
  | cons row rest ih =>
    simp only [detectGo]
    exact ih _ _ (detectStep_inv kw index row _ s hs)

/-- C5: at most one table is open at any time (the state carries a single
`current_table` buffer by construction); every table `detect_tables` emits
has all its data rows of length equal to its column count (the length of the
header that opened it); and a non-header row whose non-null count differs
from the active header length closes the open table — it is flushed without
the row, the row is absorbed nowhere, and the state returns to `no_table`. -/
theorem C5_rows_match_columns (kw : List String) (grid : List (List Cell)) :
    (∀ t ∈ (detectTables kw grid).tables, ∀ r ∈ t.rows, r.length = t.columns.length) ∧
    (∀ index row nextRow s, s.inTable = true → isHeaderRow kw row nextRow = false →
      ¬ (dropna row).length = (s.header.getD []).length →
      detectStep kw index row nextRow s = { flushTable s with header := none, inTable := false }) := by
  constructor
  · intro t ht r hr
    have hinv := detectGo_inv kw grid 0 initState initStateInv
    unfold stateInv at hinv
    obtain ⟨h1, h2, h3, h4⟩ := hinv
    exact (flushTable_tables_ok (detectGo kw grid 0 initState) h1 h2 h3 h4 t ht).1 r hr
  · intro index row nextRow s hin hnh hlen
    unfold detectStep
    rw [hnh, hin]
    simp [hlen]

/-- A concrete mid-scan state with a two-column active header, for the C5
witness. -/
def exStateC5 : DetectState :=
  { tables := [], currentTable := [[Cell.intVal 5, Cell.intVal 6]], headerRowIndices := [0],
    headers := [[Cell.text "X", Cell.text "Y"]], header := some [Cell.text "X", Cell.text "Y"],
    inTable := true }

/-- C5 witness: the row-length property on a concrete emitted table, and the
closing step on a concrete mismatched non-header row. -/
theorem C5_witness :
    ([Cell.intVal 9] : List Cell).length =
      (Table.mk [Cell.text "Price"] [[Cell.intVal 9]]).columns.length ∧
    detectStep defaultKeywords 7 [Cell.boolVal true] [Cell.intVal 1] exStateC5 =
      { flushTable exStateC5 with header := none, inTable := false } :=
  ⟨(C5_rows_match_columns defaultKeywords gridWidthMismatch).1
      (Table.mk [Cell.text "Price"] [[Cell.intVal 9]]) (by decide) [Cell.intVal 9] (by decide),
   (C5_rows_match_columns defaultKeywords gridWidthMismatch).2 7 [Cell.boolVal true]
      [Cell.intVal 1] exStateC5 rfl (by decide) (by decide)⟩

/-- C10: every table `detect_tables` returns holds at least one data row; a
detected header never followed by a matching data row yields no table even
though its index and values are appended to the returned lists, so on
`gridSkippedHeader` the tables list is strictly shorter than the headers
list while both headers and both indices are recorded. -/
theorem C10_headers_without_tables :
    (∀ kw grid, ∀ t ∈ (detectTables kw grid).tables, t.rows ≠ []) ∧
    (detectTables defaultKeywords gridSkippedHeader).tables.length <
      (detectTables defaultKeywords gridSkippedHeader).headers.length ∧
    (detectTables defaultKeywords gridSkippedHeader).headerRowIndices = [0, 2] ∧
    (detectTables defaultKeywords gridSkippedHeader).headers =
      [[Cell.text "Name"], [Cell.text "Total"]] := by
  refine ⟨?_, by decide, by decide, by decide⟩
  intro kw grid t ht
  have hinv := detectGo_inv kw grid 0 initState initStateInv
  unfold stateInv at hinv
  obtain ⟨h1, h2, h3, h4⟩ := hinv
  exact (flushTable_tables_ok (detectGo kw grid 0 initState) h1 h2 h3 h4 t ht).2

/-- C10 witness: the non-emptiness guarantee applied to the one concrete
table detected on `gridSkippedHeader`. -/
theorem C10_witness :
    (Table.mk [Cell.text "Total"] [[Cell.intVal 9]]).rows ≠ [] :=
  C10_headers_without_tables.1 defaultKeywords gridSkippedHeader
    (Table.mk [Cell.text "Total"] [[Cell.intVal 9]]) (by decide)

/-- C6: the extraction is a deterministic function of the grid and keyword
set: two runs on the same inputs give the same tables, the same header row
indices and the same headers. The diagnostic prints of the Python code do
not feed back into any computed value, so the embedding is a pure function
and the two runs coincide. -/
theorem C6_deterministic (kw : List String) (grid : List (List Cell)) :
    extractRun kw grid = extractRun kw grid ∧
    extractTables kw grid = extractTables kw grid :=
  ⟨rfl, rfl⟩

/-- C7: the 0.75 threshold is inclusive on both ratios — a row whose
non-null cells are exactly 75% string-or-date-like followed by a row whose
non-null cells are exactly 75% numeric classifies as a header; and the
classification fails whenever the shape ratio is strictly below 0.75 with no
keyword hit, or the data ratio is strictly below 0.75. -/
theorem C7_threshold_boundary (kw : List String) (row nextRow : List Cell) :
    (0 < (dropna row).length →
     4 * ((dropna row).filter isStringOrDate).length = 3 * (dropna row).length →
     0 < (dropna nextRow).length →
     4 * ((dropna nextRow).filter isNumericCell).length = 3 * (dropna nextRow).length →
     isHeaderRow kw row nextRow = true) ∧
    (4 * ((dropna row).filter isStringOrDate).length < 3 * (dropna row).length →
     rowKeywordHit kw (dropna row) = false →
     isHeaderRow kw row nextRow = false) ∧
    (4 * ((dropna nextRow).filter isNumericCell).length < 3 * (dropna nextRow).length →
     isHeaderRow kw row nextRow = false) := by
  refine ⟨?_, ?_, ?_⟩
  · intro h1 h2 h3 h4
    simp only [isHeaderRow]
    rw [if_neg (by omega), if_neg (by omega)]
    simp only [Bool.and_eq_true, Bool.or_eq_true, decide_eq_true_eq]
    exact ⟨Or.inl (by omega), by omega⟩
  · intro h1 h2
    simp only [isHeaderRow]
    by_cases hz : (dropna row).length = 0
    · rw [if_pos hz]
    · rw [if_neg hz]
      by_cases hz2 : (dropna nextRow).length = 0
      · rw [if_pos hz2]
      · rw [if_neg hz2]
        have hsh : ¬ 3 * (dropna row).length ≤ 4 * ((dropna row).filter isStringOrDate).length := by
          omega
        simp [h2, hsh]
  · intro h1
    simp only [isHeaderRow]
    by_cases hz : (dropna row).length = 0
    · rw [if_pos hz]
    · rw [if_neg hz]
      by_cases hz2 : (dropna nextRow).length = 0
      · rw [if_pos hz2]
      · rw [if_neg hz2]
        have hda : ¬ 3 * (dropna nextRow).length ≤ 4 * ((dropna nextRow).filter isNumericCell).length := by
          omega
        simp [hda]

/-- C7 witness: a 3-of-4 string row over a 3-of-4 numeric row classifies as
a header; a 0-of-1 string row with no keyword hit does not; a row over a
0-of-1 numeric row does not. -/
theorem C7_witness :
    isHeaderRow defaultKeywords
      [Cell.text "a", Cell.text "b", Cell.text "c", Cell.boolVal true]
      [Cell.intVal 1, Cell.intVal 2, Cell.intVal 3, Cell.text "x"] = true ∧
    isHeaderRow defaultKeywords [Cell.boolVal true] [Cell.intVal 1] = false ∧
    isHeaderRow defaultKeywords [Cell.text "z"] [Cell.text "w"] = false :=
  ⟨(C7_threshold_boundary defaultKeywords
      [Cell.text "a", Cell.text "b", Cell.text "c", Cell.boolVal true]
      [Cell.intVal 1, Cell.intVal 2, Cell.intVal 3, Cell.text "x"]).1
      (by decide) (by decide) (by decide) (by decide),
   (C7_threshold_boundary defaultKeywords [Cell.boolVal true] [Cell.intVal 1]).2.1
      (by decide) (by decide),
   (C7_threshold_boundary defaultKeywords [Cell.text "z"] [Cell.text "w"]).2.2 (by decide)⟩

/-- C8: the classifier is a total boolean function — the embedding returns a
boolean on every pair of rows; the one cell kind whose date parse fails
(`bool`, where `pd.to_datetime` raises `TypeError`) is resolved locally to
"not date-like" by the `except` branch rather than propagating; and a fully
empty row degrades to a negative classification. -/
theorem C8_total_and_graceful :
    (∀ kw row nextRow, isHeaderRow kw row nextRow = true ∨ isHeaderRow kw row nextRow = false) ∧
    (∀ b, isStringOrDate (Cell.boolVal b) = false) ∧
    (∀ kw nextRow, isHeaderRow kw [] nextRow = false) := by
  refine ⟨?_, ?_, ?_⟩
  · intro kw row nextRow
    cases h : isHeaderRow kw row nextRow
    · exact Or.inr rfl
    · exact Or.inl rfl
  · intro b
    rfl
  · intro kw nextRow
    rfl

theorem processOne_idem (t : Table) (h : List Cell) :
    processOne (processOne t h) h = processOne t h := by
  by_cases hc : (h.length == t.columns.length) = true
  · simp [processOne, hc]
  · simp [processOne, hc]

/-- C9: finalization is idempotent — running `process_tables` a second time
over its own output with the same headers changes nothing: column names,
rows, row count and row order all stay as after the first run. -/
theorem C9_finalize_idempotent (ts : List Table) (hs : List (List Cell)) :
    processTables (processTables ts hs) hs = processTables ts hs := by
  induction ts generalizing hs with
  | nil => rfl
  | cons t ts2 ih =>
    cases hs with
    | nil => rfl
    | cons h hs2 =>
      have hstep : processTables (processTables (t :: ts2) (h :: hs2)) (h :: hs2) =
          processOne (processOne t h) h :: processTables (processTables ts2 hs2) hs2 := rfl
      rw [hstep, processOne_idem, ih]
      rfl
